import Mathlib

/-!
Verification of the Lawgorithm hybrid retrieval engine
(`src/lawgorithm/retriever.py`, `src/lawgorithm/utils.py`).

The Python code is shallowly embedded: pure fragments become Lean
functions, the filesystem and the external collaborators (the embedding
encoder and the ChromaDB vector store) become explicit parameters, and
Python exceptions become `Option`/`Except` values.
-/

namespace Lawgorithm

/-- A case record, as stored in the per-category JSON datasets.  The
retriever reads exactly these string fields (`retriever.py` lines 87,
111, 116). -/
structure CaseRecord where
  case_id : String
  title : String
  judgment_summary : String
  description : String
  verdict : String
deriving DecidableEq, Repr

/-- `d.get("judgment_summary","") or d.get("description","") or ""`
(`retriever.py` lines 87 and 111): Python `or` picks the first non-empty
string. -/
def docText (d : CaseRecord) : String :=
  if d.judgment_summary ≠ "" then d.judgment_summary
  else if d.description ≠ "" then d.description
  else ""

/-! ### Python string/int semantics used by `search` -/

/-- Python `s.split(sep)` for a one-character separator, on the character
list: splits at every occurrence and keeps empty fragments, so
`"a__b".split('_') = ["a","","b"]` and `"".split('_') = [""]`. -/
def splitChar (sep : Char) : List Char → List (List Char)
  | [] => [[]]
  | c :: rest =>
    let r := splitChar sep rest
    if c = sep then [] :: r
    else (c :: r.headD []) :: r.tail

/-- Numeric value of an ASCII digit character. -/
def digitVal (c : Char) : Nat := c.toNat - 48

/-- Parse a nonempty all-digit character list as a decimal natural. -/
def parseDigits (l : List Char) : Option Nat :=
  if l.isEmpty then none
  else if l.all Char.isDigit then
    some (l.foldl (fun a c => 10 * a + digitVal c) 0)
  else none

/-- Drop leading and trailing spaces. -/
def stripSpaces (l : List Char) : List Char :=
  (((l.dropWhile (· = ' ')).reverse.dropWhile (· = ' ')).reverse)

/-- Python `int(s)` restricted to ASCII: surrounding spaces are ignored,
an optional single sign is allowed, and the rest must be a nonempty
digit string; otherwise `ValueError` (here `none`). -/
def pyInt (l : List Char) : Option Int :=
  let t := stripSpaces l
  if t.head? = some '-' then (parseDigits t.tail).map (fun n => -(n : Int))
  else if t.head? = some '+' then (parseDigits t.tail).map (fun n => (n : Int))
  else (parseDigits t).map (fun n => (n : Int))

/-- `int(doc_id.split('_')[1])` (`retriever.py` line 147): `none` stands
for the `IndexError` (fewer than two fragments) or `ValueError`
(non-integer fragment) that the caller catches. -/
def parsedIndex (docId : String) : Option Int :=
  ((splitChar '_' docId.data).get? 1).bind pyInt

/-- The effective non-negative store position selected by
`retriever.py` lines 146–151 for one identifier: the parsed index must
satisfy `idx < len(store)`; a non-negative index is used directly, a
negative index `idx ≥ -len(store)` selects position `len(store) + idx`
(Python negative indexing), and any other index is dropped (the
`IndexError` of `store[idx]` is caught). -/
def resolvePos (len : Nat) (docId : String) : Option Nat :=
  match parsedIndex docId with
  | none => none
  | some idx =>
    if idx < (len : Int) then
      if 0 ≤ idx then some idx.toNat
      else if 0 ≤ (len : Int) + idx then some ((len : Int) + idx).toNat
      else none
    else none

/-- Resolution of one returned identifier to a case record
(`retriever.py` lines 144–151); `none` means the entry is skipped. -/
def resolveOne (store : List CaseRecord) (docId : String) : Option CaseRecord :=
  (resolvePos store.length docId).bind store.get?

/-- The result-assembly loop of `search` (`retriever.py` lines 141–153):
every identifier that fails to resolve is dropped silently and the rest
are returned in reply order. -/
def resolveIds (store : List CaseRecord) (ids : List String) : List CaseRecord :=
  ids.filterMap (resolveOne store)

/-- `resolveIds` with each surviving record paired with the score its
identifier carried in the vector store's reply (used to state ordering
properties of the reply passed through `search`). -/
def resolveScored (store : List CaseRecord) (scored : List (String × Int)) :
    List (CaseRecord × Int) :=
  scored.filterMap (fun p => (resolveOne store p.1).map (fun r => (r, p.2)))

/-! ### Ingestion identifiers -/

/-- Decimal rendering of a natural number, structurally recursive on a
fuel bound (any fuel above the argument yields the digit string). -/
def natCharsAux (fuel : Nat) (n : Nat) : List Char :=
  match fuel with
  | 0 => []
  | fuel + 1 =>
    if n < 10 then [Char.ofNat (48 + n)]
    else natCharsAux fuel (n / 10) ++ [Char.ofNat (48 + n % 10)]

/-- Decimal rendering of a natural number (the digits of Python's
`f"doc_{i}"`). -/
def natChars (n : Nat) : List Char := natCharsAux (n + 1) n

/-- The identifier `f"doc_{i}"` assigned at ingestion
(`retriever.py` line 113, global index `i`). -/
def canonId (i : Nat) : String := ⟨'d' :: 'o' :: 'c' :: '_' :: natChars i⟩

/-- The full identifier set ingested for a store of `n` documents:
`doc_0 … doc_{n-1}` (`retriever.py` lines 108–126). -/
def ingestIds (n : Nat) : List String := (List.range n).map canonId

/-- Python `cat.lower()` on the ASCII category names
(`retriever.py` line 43). -/
def pyLower (s : String) : String := ⟨s.data.map Char.toLower⟩

/-! ### Dataset loading (`utils.py` lines 6–20) -/

/-- A modelled filesystem of JSON dataset files: `none` means the path
does not exist, `some none` means the file exists but `json.load`
raises, `some (some d)` means it parses to the record list `d`. -/
def FileSys : Type := String → Option (Option (List CaseRecord))

/-- `load_json_data` (`utils.py` lines 6–20): a missing file or any
exception during reading/parsing yields the empty list; otherwise the
parsed content is returned. -/
def load_json_data (fs : FileSys) (path : String) : List CaseRecord :=
  match fs path with
  | none => []
  | some none => []
  | some (some data) => data

/-- The three dataset paths (`config.py` lines 15–17), keyed by the
category names of `retriever.py` line 34. -/
def datasetPath (cat : String) : String :=
  if cat = "Civil" then "india_civil_verdicts.json"
  else if cat = "Criminal" then "india_criminal_verdicts.json"
  else "india_traffic_verdicts.json"

/-! ### The retriever -/

/-- The categories of `retriever.py` line 34. -/
def categories : List String := ["Civil", "Criminal", "Traffic"]

/-- The in-memory maps built by `_initialize_collections`:
`self.collections` (category to persistent-collection name) and
`self.doc_stores` (category to loaded record list), both Python dicts
keyed by the capitalized category names. -/
structure Retriever where
  collections : List (String × String)
  doc_stores : List (String × List CaseRecord)

/-- An embedding-provider failure (the exception raised by
`self.encoder.encode`). -/
structure EmbErr where
  msg : String
deriving DecidableEq, Repr

/-- `search` (`retriever.py` lines 129–153).  The two external
collaborators are parameters: `encode` is `self.encoder.encode` (it may
raise, modelled by `Except`) and `chromaQuery` is the vector store's
`collection.query`, giving the identifier list
`vector_results['ids'][0]` for a collection name, query embedding and
`n_results = k`.  An unknown category returns `[]` before the encoder
is ever called (lines 130–131); an encoder failure propagates because
lines 134–153 contain no handler for it. -/
def search (encode : String → Except EmbErr (List Int))
    (chromaQuery : String → List Int → Nat → List String)
    (r : Retriever) (query : String) (category : String) (k : Nat) :
    Except EmbErr (List CaseRecord) :=
  match r.collections.lookup category with
  | none => .ok []
  | some coll =>
    match encode query with
    | .error e => .error e
    | .ok qe =>
      .ok (resolveIds ((r.doc_stores.lookup category).getD []) (chromaQuery coll qe k))

/-! ### Initialization (`retriever.py` lines 33–59) and ingestion -/

/-- The ingestion guard of `retriever.py` line 51:
`if collection.count() == 0 and data:`. -/
def ingestRuns (count : Nat) (data : List CaseRecord) : Bool :=
  count == 0 && !data.isEmpty

/-- Number of `encoder.encode` invocations made by `_ingest_data` on a
dataset of `n` records: one per batch of 100 (`retriever.py`
lines 107–119). -/
def ingestEmbedCalls (n : Nat) : Nat := (n + 99) / 100

/-- The state threaded through `_initialize_collections`: the maps under
construction, the persistent collections' item counts (by collection
name; `get_or_create_collection` of a fresh name has count 0), and the
running number of ingestion calls to the embedding provider. -/
structure InitState where
  retriever : Retriever
  collCount : String → Nat
  embedCalls : Nat

/-- One iteration of the loop of `_initialize_collections`
(`retriever.py` lines 41–59) for category `cat`: get-or-create the
collection named `cat.lower()`, load the dataset, record the document
store, and ingest exactly when the collection is empty and the data is
non-empty (ingestion inserts one entry per record, so the count becomes
the dataset length). -/
def initStep (fs : FileSys) (acc : InitState) (cat : String) : InitState :=
  let name := pyLower cat
  let data := load_json_data fs (datasetPath cat)
  let doIngest := ingestRuns (acc.collCount name) data
  { retriever :=
      { collections := acc.retriever.collections ++ [(cat, name)]
        doc_stores := acc.retriever.doc_stores ++ [(cat, data)] }
    collCount :=
      if doIngest then (fun m => if m = name then data.length else acc.collCount m)
      else acc.collCount
    embedCalls := acc.embedCalls + (if doIngest then ingestEmbedCalls data.length else 0) }

/-- `_initialize_collections` (`retriever.py` lines 33–59) over a
modelled filesystem, starting from persistent collection counts
`cc0`. -/
def initCollections (fs : FileSys) (cc0 : String → Nat) : InitState :=
  categories.foldl (initStep fs) ⟨⟨[], []⟩, cc0, 0⟩

/-! ### The BM25 cache decision (`retriever.py` lines 61–98) -/

/-- Whether `_build_bm25_index` uses the cached artifact (`true`) or
rebuilds the index from the documents (`false`), as a function of the
observable file state: the cache is used exactly when it exists, the
staleness test `source_file.stat().st_mtime > cache_file.stat().st_mtime`
does not fire (it is skipped when the source file is missing), and
unpickling succeeds (`loadOk`); every other path falls through to the
rebuild at lines 85–98. -/
def bm25UsesCache (cacheExists sourceExists loadOk : Bool)
    (srcMtime cacheMtime : Nat) : Bool :=
  cacheExists && !(sourceExists && decide (cacheMtime < srcMtime)) && loadOk

/-! ### The vector store's reply contract -/

/-- Modelled from the spec: the external vector store's reply to a
`k`-nearest query, with each identifier paired with its similarity
score, is ordered by nonincreasing score (spec §4.3: "descending by
semantic similarity (implementation-defined distance metric, but must
be monotonic and deterministic)").  The contract fixes no order among
entries with equal scores. -/
def SemContractReply (scored : List (String × Int)) : Prop :=
  scored.Pairwise (fun a b => b.2 ≤ a.2)

/-! ### Lemmas: decimal identifiers round-trip through the parser -/

lemma isDigit_digit_char {d : Nat} (h : d < 10) :
    (Char.ofNat (48 + d)).isDigit = true := by
  interval_cases d <;> decide

lemma digitVal_digit_char {d : Nat} (h : d < 10) :
    digitVal (Char.ofNat (48 + d)) = d := by
  interval_cases d <;> decide

lemma natCharsAux_spec :
    ∀ fuel n, n < fuel →
      natCharsAux fuel n ≠ [] ∧ (∀ c ∈ natCharsAux fuel n, c.isDigit = true) ∧
        (natCharsAux fuel n).foldl (fun a c => 10 * a + digitVal c) 0 = n := by
  intro fuel
  induction fuel with
  | zero => intro n hn; omega
  | succ fuel ih =>
    intro n hn
    by_cases h : n < 10
    · refine ⟨by simp [natCharsAux, h], ?_, ?_⟩
      · simp only [natCharsAux, if_pos h, List.mem_singleton]
        rintro c rfl
        exact isDigit_digit_char h
      · simp only [natCharsAux, if_pos h, List.foldl_cons, List.foldl_nil]
        rw [digitVal_digit_char h]
        omega
    · have hdiv : n / 10 < fuel := by
        have := Nat.div_lt_self (show 0 < n by omega) (show 1 < 10 by omega)
        omega
      obtain ⟨ih1, ih2, ih3⟩ := ih (n / 10) hdiv
      refine ⟨by simp [natCharsAux, h], ?_, ?_⟩
      · simp only [natCharsAux, if_neg h, List.mem_append, List.mem_singleton]
        rintro c (hc | rfl)
        · exact ih2 c hc
        · exact isDigit_digit_char (Nat.mod_lt _ (by omega))
      · simp only [natCharsAux, if_neg h, List.foldl_append, List.foldl_cons,
          List.foldl_nil, ih3]
        rw [digitVal_digit_char (Nat.mod_lt _ (by omega))]
        omega

lemma natChars_ne_nil (n : Nat) : natChars n ≠ [] :=
  (natCharsAux_spec (n + 1) n (by omega)).1

lemma natChars_all_digit (n : Nat) : ∀ c ∈ natChars n, c.isDigit = true :=
  (natCharsAux_spec (n + 1) n (by omega)).2.1

lemma natChars_foldl (n : Nat) :
    (natChars n).foldl (fun a c => 10 * a + digitVal c) 0 = n :=
  (natCharsAux_spec (n + 1) n (by omega)).2.2

lemma parseDigits_natChars (n : Nat) : parseDigits (natChars n) = some n := by
  unfold parseDigits
  rw [if_neg, if_pos, natChars_foldl]
  · exact List.all_eq_true.mpr (natChars_all_digit n)
  · simpa [List.isEmpty_iff] using natChars_ne_nil n

lemma isDigit_ne_space {c : Char} (h : c.isDigit = true) : c ≠ ' ' := by
  rintro rfl; exact absurd h (by decide)

lemma isDigit_ne_minus {c : Char} (h : c.isDigit = true) : c ≠ '-' := by
  rintro rfl; exact absurd h (by decide)

lemma isDigit_ne_plus {c : Char} (h : c.isDigit = true) : c ≠ '+' := by
  rintro rfl; exact absurd h (by decide)

lemma isDigit_ne_underscore {c : Char} (h : c.isDigit = true) : c ≠ '_' := by
  rintro rfl; exact absurd h (by decide)

lemma dropWhile_spaces_eq_self {l : List Char} (h : ∀ c ∈ l, c ≠ ' ') :
    l.dropWhile (· = ' ') = l := by
  cases l with
  | nil => rfl
  | cons c cs =>
    rw [List.dropWhile_cons, if_neg]
    simpa using h c (by simp)

lemma stripSpaces_eq_self {l : List Char} (h : ∀ c ∈ l, c ≠ ' ') :
    stripSpaces l = l := by
  unfold stripSpaces
  rw [dropWhile_spaces_eq_self h, dropWhile_spaces_eq_self, List.reverse_reverse]
  intro c hc
  exact h c (List.mem_reverse.mp hc)

lemma pyInt_natChars (n : Nat) : pyInt (natChars n) = some (n : Int) := by
  have hall := natChars_all_digit n
  have hss : stripSpaces (natChars n) = natChars n :=
    stripSpaces_eq_self (fun c hc => isDigit_ne_space (hall c hc))
  have hhead : ∀ c, (natChars n).head? = some c → c.isDigit = true := by
    intro c hc
    exact hall c (List.mem_of_mem_head? hc)
  unfold pyInt
  rw [hss, if_neg, if_neg, parseDigits_natChars]
  · rfl
  · intro hplus
    exact isDigit_ne_plus (hhead _ hplus) rfl
  · intro hminus
    exact isDigit_ne_minus (hhead _ hminus) rfl

lemma splitChar_no_sep {sep : Char} {l : List Char} (h : ∀ c ∈ l, c ≠ sep) :
    splitChar sep l = [l] := by
  induction l with
  | nil => rfl
  | cons c cs ih =>
    unfold splitChar
    rw [if_neg (h c (by simp))]
    rw [ih (fun x hx => h x (by simp [hx]))]
    simp

lemma splitChar_cons_sep (sep : Char) (l : List Char) :
    splitChar sep (sep :: l) = [] :: splitChar sep l := by
  conv_lhs => rw [splitChar]
  simp

lemma splitChar_cons_ne {sep c : Char} (h : c ≠ sep) (l : List Char) :
    splitChar sep (c :: l) =
      (c :: (splitChar sep l).headD []) :: (splitChar sep l).tail := by
  conv_lhs => rw [splitChar]
  simp [h]

lemma splitChar_canonId (i : Nat) :
    splitChar '_' (canonId i).data = [['d', 'o', 'c'], natChars i] := by
  have hrest : splitChar '_' (natChars i) = [natChars i] :=
    splitChar_no_sep (fun c hc => isDigit_ne_underscore (natChars_all_digit i c hc))
  show splitChar '_' ('d' :: 'o' :: 'c' :: '_' :: natChars i) = _
  rw [splitChar_cons_ne (by decide), splitChar_cons_ne (by decide),
    splitChar_cons_ne (by decide), splitChar_cons_sep, hrest]
  simp

lemma parsedIndex_canonId (i : Nat) : parsedIndex (canonId i) = some (i : Int) := by
  unfold parsedIndex
  rw [splitChar_canonId]
  simpa using pyInt_natChars i

lemma resolvePos_canonId {i n : Nat} (h : i < n) :
    resolvePos n (canonId i) = some i := by
  unfold resolvePos
  rw [parsedIndex_canonId]
  simp only [Int.toNat_natCast]
  rw [if_pos (by exact_mod_cast h), if_pos (by positivity)]

lemma canonId_injective : Function.Injective canonId := by
  intro i j hij
  have h1 := parsedIndex_canonId i
  have h2 := parsedIndex_canonId j
  rw [hij, h2] at h1
  exact_mod_cast (Option.some_injective _ h1).symm

lemma mem_ingestIds {id : String} {n : Nat} :
    id ∈ ingestIds n ↔ ∃ i, i < n ∧ id = canonId i := by
  simp only [ingestIds, List.mem_map, List.mem_range]
  constructor
  · rintro ⟨i, hi, rfl⟩; exact ⟨i, hi, rfl⟩
  · rintro ⟨i, hi, rfl⟩; exact ⟨i, hi, rfl⟩

/-! ### Lemmas: identifier resolution -/

lemma resolvePos_lt {len : Nat} {docId : String} {p : Nat}
    (h : resolvePos len docId = some p) : p < len := by
  unfold resolvePos at h
  cases hpi : parsedIndex docId with
  | none =>
    simp only [hpi] at h
    exact absurd h (by simp)
  | some idx =>
    simp only [hpi] at h
    by_cases h1 : idx < (len : Int)
    · rw [if_pos h1] at h
      by_cases h2 : (0 : Int) ≤ idx
      · rw [if_pos h2] at h
        have := Option.some_injective _ h
        omega
      · rw [if_neg h2] at h
        by_cases h3 : (0 : Int) ≤ (len : Int) + idx
        · rw [if_pos h3] at h
          have := Option.some_injective _ h
          omega
        · rw [if_neg h3] at h
          exact absurd h (by simp)
    · rw [if_neg h1] at h
      exact absurd h (by simp)

lemma resolveOne_of_pos {store : List CaseRecord} {docId : String} {p : Nat}
    (h : resolvePos store.length docId = some p) :
    resolveOne store docId = store.get? p := by
  unfold resolveOne
  rw [h]
  rfl

lemma resolveIds_eq_positions (store : List CaseRecord) (ids : List String) :
    resolveIds store ids
      = (ids.filterMap (resolvePos store.length)).filterMap store.get? := by
  rw [List.filterMap_filterMap]
  rfl

lemma length_filterMap_get? {store : List CaseRecord} :
    ∀ {ps : List Nat}, (∀ p ∈ ps, p < store.length) →
      (ps.filterMap store.get?).length = ps.length := by
  intro ps
  induction ps with
  | nil => intro _; rfl
  | cons p ps ih =>
    intro h
    rw [List.filterMap_cons_some (List.get?_eq_get (h p (by simp)))]
    simp only [List.length_cons]
    rw [ih (fun q hq => h q (by simp [hq]))]

lemma filterMap_resolvePos_nodup {n : Nat} :
    ∀ {ids : List String}, ids.Nodup → (∀ id ∈ ids, id ∈ ingestIds n) →
      (ids.filterMap (resolvePos n)).Nodup := by
  intro ids
  induction ids with
  | nil => intro _ _; simp
  | cons id tl ih =>
    intro hnd hmem
    obtain ⟨i, hi, rfl⟩ := mem_ingestIds.mp (hmem id (by simp))
    rw [List.filterMap_cons_some (resolvePos_canonId hi)]
    rw [List.nodup_cons]
    refine ⟨?_, ih (List.nodup_cons.mp hnd).2 (fun x hx => hmem x (by simp [hx]))⟩
    intro hmemi
    obtain ⟨id', hid', hres⟩ := List.mem_filterMap.mp hmemi
    obtain ⟨j, hj, rfl⟩ := mem_ingestIds.mp (hmem id' (List.mem_cons_of_mem _ hid'))
    rw [resolvePos_canonId hj] at hres
    have hji : j = i := Option.some_injective _ hres
    subst hji
    exact (List.nodup_cons.mp hnd).1 hid'

lemma mem_of_mem_resolveIds {store : List CaseRecord} {ids : List String}
    {r : CaseRecord} (h : r ∈ resolveIds store ids) : r ∈ store := by
  obtain ⟨id, _, hres⟩ := List.mem_filterMap.mp h
  unfold resolveOne at hres
  cases hp : resolvePos store.length id with
  | none => rw [hp] at hres; exact absurd hres (by simp)
  | some p =>
    rw [hp] at hres
    simp only [Option.some_bind] at hres
    exact List.get?_mem hres

lemma resolvePos_zero (docId : String) : resolvePos 0 docId = none := by
  unfold resolvePos
  cases parsedIndex docId with
  | none => rfl
  | some idx =>
    simp only [Nat.cast_zero]
    split
    · rw [if_neg (by omega), if_neg (by omega)]
    · rfl

lemma resolveIds_nil_store (ids : List String) : resolveIds [] ids = [] := by
  unfold resolveIds
  rw [List.filterMap_eq_nil_iff]
  intro id _
  unfold resolveOne
  rw [show ([] : List CaseRecord).length = 0 from rfl, resolvePos_zero]
  rfl

lemma pairwise_filterMap_of_pairwise {α β : Type _} {R : α → α → Prop}
    {S : β → β → Prop} (f : α → Option β)
    (hf : ∀ a a' b b', R a a' → f a = some b → f a' = some b' → S b b') :
    ∀ {l : List α}, l.Pairwise R → (l.filterMap f).Pairwise S := by
  intro l
  induction l with
  | nil => intro _; simp
  | cons a tl ih =>
    intro hp
    rw [List.pairwise_cons] at hp
    cases hfa : f a with
    | none =>
      rw [List.filterMap_cons_none hfa]
      exact ih hp.2
    | some b =>
      rw [List.filterMap_cons_some hfa, List.pairwise_cons]
      refine ⟨?_, ih hp.2⟩
      intro b' hb'
      obtain ⟨a', ha', hfa'⟩ := List.mem_filterMap.mp hb'
      exact hf a a' b b' (hp.1 a' ha') hfa hfa'

lemma resolveScored_pairwise {store : List CaseRecord}
    {scored : List (String × Int)} (h : SemContractReply scored) :
    (resolveScored store scored).Pairwise (fun a b => b.2 ≤ a.2) := by
  unfold resolveScored
  refine pairwise_filterMap_of_pairwise _ ?_ h
  rintro ⟨id, s⟩ ⟨id', s'⟩ ⟨r, t⟩ ⟨r', t'⟩ hR h1 h2
  simp only [Option.map_eq_some'] at h1 h2
  obtain ⟨u, hu, h1⟩ := h1
  obtain ⟨u', hu', h2⟩ := h2
  cases h1
  cases h2
  exact hR

lemma resolveScored_map_fst (store : List CaseRecord)
    (scored : List (String × Int)) :
    (resolveScored store scored).map Prod.fst
      = resolveIds store (scored.map Prod.fst) := by
  unfold resolveScored resolveIds
  rw [List.map_filterMap, List.filterMap_map]
  congr 1
  funext p
  cases hres : resolveOne store p.1 <;> simp [Function.comp, hres]

/-! ### Lemmas: initialization and ingestion -/

lemma pyLower_Civil : pyLower "Civil" = "civil" := rfl

lemma pyLower_Criminal : pyLower "Criminal" = "criminal" := rfl

lemma pyLower_Traffic : pyLower "Traffic" = "traffic" := rfl

lemma ingestRuns_self {data : List CaseRecord} (h : data ≠ []) :
    ingestRuns data.length data = false := by
  cases data with
  | nil => exact absurd rfl h
  | cons d ds => simp [ingestRuns]

lemma initCollections_retriever (fs : FileSys) (cc0 : String → Nat) :
    (initCollections fs cc0).retriever =
      { collections := [("Civil", "civil"), ("Criminal", "criminal"),
                        ("Traffic", "traffic")]
        doc_stores := [("Civil", load_json_data fs (datasetPath "Civil")),
                       ("Criminal", load_json_data fs (datasetPath "Criminal")),
                       ("Traffic", load_json_data fs (datasetPath "Traffic"))] } := rfl

lemma initCollections_collCount_civil (fs : FileSys) (cc0 : String → Nat) :
    (initCollections fs cc0).collCount "civil"
      = if ingestRuns (cc0 "civil") (load_json_data fs (datasetPath "Civil")) = true
          then (load_json_data fs (datasetPath "Civil")).length
          else cc0 "civil" := by
  simp only [initCollections, categories, List.foldl_cons, List.foldl_nil, initStep,
    pyLower_Civil, pyLower_Criminal, pyLower_Traffic, ite_apply]
  simp [show ("civil" : String) ≠ "criminal" from by decide,
    show ("civil" : String) ≠ "traffic" from by decide]

lemma initCollections_collCount_criminal (fs : FileSys) (cc0 : String → Nat) :
    (initCollections fs cc0).collCount "criminal"
      = if ingestRuns (cc0 "criminal") (load_json_data fs (datasetPath "Criminal")) = true
          then (load_json_data fs (datasetPath "Criminal")).length
          else cc0 "criminal" := by
  simp only [initCollections, categories, List.foldl_cons, List.foldl_nil, initStep,
    pyLower_Civil, pyLower_Criminal, pyLower_Traffic, ite_apply]
  simp [show ("criminal" : String) ≠ "civil" from by decide,
    show ("criminal" : String) ≠ "traffic" from by decide]

lemma initCollections_collCount_traffic (fs : FileSys) (cc0 : String → Nat) :
    (initCollections fs cc0).collCount "traffic"
      = if ingestRuns (cc0 "traffic") (load_json_data fs (datasetPath "Traffic")) = true
          then (load_json_data fs (datasetPath "Traffic")).length
          else cc0 "traffic" := by
  simp only [initCollections, categories, List.foldl_cons, List.foldl_nil, initStep,
    pyLower_Civil, pyLower_Criminal, pyLower_Traffic, ite_apply]
  simp [show ("traffic" : String) ≠ "civil" from by decide,
    show ("traffic" : String) ≠ "criminal" from by decide]

lemma init_no_ingest_of (fs : FileSys) (cc1 : String → Nat)
    (f1 : ingestRuns (cc1 "civil") (load_json_data fs (datasetPath "Civil")) = false)
    (f2 : ingestRuns (cc1 "criminal") (load_json_data fs (datasetPath "Criminal")) = false)
    (f3 : ingestRuns (cc1 "traffic") (load_json_data fs (datasetPath "Traffic")) = false) :
    (initCollections fs cc1).embedCalls = 0 ∧
      (initCollections fs cc1).collCount = cc1 := by
  simp only [initCollections, categories, List.foldl_cons, List.foldl_nil, initStep,
    pyLower_Civil, pyLower_Criminal, pyLower_Traffic, f1, f2, f3]
  simp [f1, f2, f3]

lemma ingestRuns_after (count : Nat) (data : List CaseRecord) :
    ingestRuns (if ingestRuns count data = true then data.length else count) data
      = false := by
  by_cases h : ingestRuns count data = true
  · rw [if_pos h]
    have hne : data ≠ [] := by
      rcases data with _ | ⟨d, ds⟩
      · simp [ingestRuns] at h
      · simp
    exact ingestRuns_self hne
  · rw [if_neg h]
    exact Bool.eq_false_iff.mpr h

lemma second_init_no_ingest (fs : FileSys) (cc0 : String → Nat) :
    (initCollections fs ((initCollections fs cc0).collCount)).embedCalls = 0 ∧
    (initCollections fs ((initCollections fs cc0).collCount)).collCount
      = (initCollections fs cc0).collCount := by
  apply init_no_ingest_of
  · rw [initCollections_collCount_civil]
    exact ingestRuns_after _ _
  · rw [initCollections_collCount_criminal]
    exact ingestRuns_after _ _
  · rw [initCollections_collCount_traffic]
    exact ingestRuns_after _ _

/-! ### Lemmas: search -/

lemma search_unknown (encode : String → Except EmbErr (List Int))
    (cq : String → List Int → Nat → List String) (r : Retriever)
    (q cat : String) (k : Nat) (h : r.collections.lookup cat = none) :
    search encode cq r q cat k = .ok [] := by
  unfold search
  rw [h]

lemma lookup_collections_none {cat : String} (h : cat ∉ categories)
    (fs : FileSys) (cc0 : String → Nat) :
    ((initCollections fs cc0).retriever.collections).lookup cat = none := by
  simp only [categories, List.mem_cons, List.not_mem_nil, or_false] at h
  push_neg at h
  obtain ⟨h1, h2, h3⟩ := h
  rw [initCollections_retriever]
  simp [List.lookup, beq_eq_false_iff_ne.mpr h1, beq_eq_false_iff_ne.mpr h2,
    beq_eq_false_iff_ne.mpr h3]

lemma lookup_doc_stores (fs : FileSys) (cc0 : String → Nat) {cat : String}
    (h : cat ∈ categories) :
    ((initCollections fs cc0).retriever.doc_stores).lookup cat
      = some (load_json_data fs (datasetPath cat)) := by
  rw [initCollections_retriever]
  simp only [categories, List.mem_cons, List.not_mem_nil, or_false] at h
  rcases h with rfl | rfl | rfl <;> rfl

/-! ### Concrete fixtures for witnesses and counterexamples -/

/-- A one-record civil dataset record. -/
def demoRec : CaseRecord :=
  ⟨"case-1", "Demo v. Demo", "short judgment summary", "", "allowed"⟩

/-- A filesystem holding a one-record civil dataset and nothing else. -/
def demoFs : FileSys := fun p =>
  if p = "india_civil_verdicts.json" then some (some [demoRec]) else none

/-- The engine initialized over `demoFs` with empty persistent
collections. -/
def demoInit : InitState := initCollections demoFs (fun _ => 0)

/-- An embedding-provider failure value. -/
def embDown : EmbErr := ⟨"embedding provider unavailable"⟩

/-- Two distinct records with identical indexed text. -/
def tieRec0 : CaseRecord := ⟨"case-a", "A", "identical text", "", "dismissed"⟩

/-- Two distinct records with identical indexed text (second). -/
def tieRec1 : CaseRecord := ⟨"case-b", "B", "identical text", "", "allowed"⟩

/-- A vector-store reply with equal scores listed with the higher
document position first. -/
def tieReply : List (String × Int) := [("doc_1", 7), ("doc_0", 7)]

/-- A three-record document store. -/
def demoStore3 : List CaseRecord :=
  [⟨"c0", "t0", "alpha", "", ""⟩, ⟨"c1", "t1", "beta", "", ""⟩,
   ⟨"c2", "t2", "gamma", "", ""⟩]

/-- A retriever with one known category over `demoStore3`. -/
def demoRetriever : Retriever := ⟨[("Civil", "civil")], [("Civil", demoStore3)]⟩

/-- A retriever whose category loaded an empty store (dataset failed to
load) while its persistent collection may still answer queries. -/
def emptyStoreRetriever : Retriever := ⟨[("Civil", "civil")], [("Civil", [])]⟩

/-! ### Claim C1 -/

/-- C1 counterexample: with the cache present, the source present, both
modification times equal (here 7), and unpickling succeeding,
`_build_bm25_index` loads the cached artifact even though the cache's
modification time is not strictly after the source's — refuting the
claim that the cache is used only when strictly newer and is otherwise
rebuilt. -/
theorem C1_counterexample :
    bm25UsesCache true true true 7 7 = true ∧ ¬ (7 < 7) := by decide

/-- C1 amended: the cached BM25 artifact is used if and only if the
cache file exists, unpickling succeeds, and — when the source dataset
file exists — the source's modification time is less than or equal to
(not strictly before) the cache's; equality of timestamps loads the
cache rather than rebuilding. -/
theorem C1_cache_used_iff_not_older (ce se ok : Bool) (s c : Nat) :
    bm25UsesCache ce se ok s c = true
      ↔ (ce = true ∧ ok = true ∧ (se = false ∨ s ≤ c)) := by
  unfold bm25UsesCache
  rcases ce <;> rcases se <;> rcases ok <;> simp

/-! ### Claim C2 -/

/-- C2 counterexample: on an initialized engine with a known category,
forcing the embedding provider to fail makes `search` return that very
failure instead of a BM25-ranked result list — the claim's lexical
fallback does not exist in the code. -/
theorem C2_counterexample :
    search (fun _ => .error embDown) (fun _ _ _ => ["doc_0"])
        demoInit.retriever "road accident query" "Civil" 5
      = .error embDown := rfl

/-- C2 amended: for every known category, an embedding-provider failure
on the query propagates out of `search` unchanged; no lexical fallback
path is taken. -/
theorem C2_embedding_failure_propagates
    (encode : String → Except EmbErr (List Int))
    (cq : String → List Int → Nat → List String)
    (r : Retriever) (q cat : String) (k : Nat) (coll : String) (e : EmbErr)
    (hc : r.collections.lookup cat = some coll)
    (he : encode q = .error e) :
    search encode cq r q cat k = .error e := by
  unfold search
  rw [hc, he]

/-- C2 witness: the amended statement instantiated on the demo engine. -/
theorem C2_embedding_failure_propagates_witness :
    search (fun _ => .error embDown) (fun _ _ _ => []) demoInit.retriever
        "q" "Civil" 3 = .error embDown :=
  C2_embedding_failure_propagates _ _ _ _ _ _ "civil" embDown rfl rfl

/-! ### Claim C3 -/

/-- C3 counterexample: a vector-store reply that satisfies the store's
ordering contract (nonincreasing scores) but lists two equal-scored
documents with the higher position first passes through `search`'s
result assembly unchanged: the two records have identical indexed text
and distinct positions, yet the higher position comes back first,
refuting the claimed ascending-position tie-break. -/
theorem C3_counterexample :
    SemContractReply tieReply ∧
    docText tieRec0 = docText tieRec1 ∧ tieRec0 ≠ tieRec1 ∧
    resolveIds [tieRec0, tieRec1] (tieReply.map Prod.fst) = [tieRec1, tieRec0] ∧
    ([tieRec1, tieRec0] : List CaseRecord) ≠ [tieRec0, tieRec1] := by
  refine ⟨?_, by decide, by decide, by decide, by decide⟩
  unfold SemContractReply tieReply
  decide

/-- C3 amended: `search` returns results in exactly the order of the
vector store's reply (dropped identifiers aside); hence scores are
nonincreasing whenever the store's reply is so ordered, but the order of
equal-scored results is whatever the store chose — the engine applies no
tie-break of its own. -/
theorem C3_order_inherited (store : List CaseRecord)
    (scored : List (String × Int)) (h : SemContractReply scored) :
    (resolveScored store scored).Pairwise (fun a b => b.2 ≤ a.2) ∧
    (resolveScored store scored).map Prod.fst
      = resolveIds store (scored.map Prod.fst) :=
  ⟨resolveScored_pairwise h, resolveScored_map_fst store scored⟩

/-- C3 witness: the amended statement instantiated on a concrete sorted
reply. -/
theorem C3_order_inherited_witness :
    SemContractReply [("doc_0", (9 : Int)), ("doc_1", 3)] ∧
      ((resolveScored demoStore3 [("doc_0", (9 : Int)), ("doc_1", 3)]).Pairwise
          (fun a b => b.2 ≤ a.2) ∧
        (resolveScored demoStore3 [("doc_0", (9 : Int)), ("doc_1", 3)]).map Prod.fst
          = resolveIds demoStore3
              ([("doc_0", (9 : Int)), ("doc_1", 3)].map Prod.fst)) := by
  have h : SemContractReply [("doc_0", (9 : Int)), ("doc_1", 3)] := by
    unfold SemContractReply
    decide
  exact ⟨h, C3_order_inherited demoStore3 _ h⟩

/-! ### Claim C4 -/

/-- C4: for a known category whose store backs the reply's ingestion
identifiers (the vector store returns at most `k` of them, each at most
once), `search` succeeds with at most `k` records, at most one per
stored document, with no two results coming from the same document
position — and with only `n < k` documents it returns at most `n`
results, without padding or error. -/
theorem C4_search_bounds
    (encode : String → Except EmbErr (List Int))
    (cq : String → List Int → Nat → List String)
    (r : Retriever) (q cat : String) (k : Nat) (coll : String) (qe : List Int)
    (store : List CaseRecord)
    (hc : r.collections.lookup cat = some coll)
    (hs : r.doc_stores.lookup cat = some store)
    (he : encode q = .ok qe)
    (hlen : (cq coll qe k).length ≤ k)
    (hnd : (cq coll qe k).Nodup)
    (hmem : ∀ id ∈ cq coll qe k, id ∈ ingestIds store.length) :
    search encode cq r q cat k = .ok (resolveIds store (cq coll qe k)) ∧
    (resolveIds store (cq coll qe k)).length ≤ k ∧
    (resolveIds store (cq coll qe k)).length ≤ store.length ∧
    ((cq coll qe k).filterMap (resolvePos store.length)).Nodup ∧
    resolveIds store (cq coll qe k)
      = ((cq coll qe k).filterMap (resolvePos store.length)).filterMap
          store.get? := by
  have hsearch : search encode cq r q cat k
      = .ok (resolveIds store (cq coll qe k)) := by
    unfold search
    rw [hc, he, hs]
    rfl
  have hposlt : ∀ p ∈ (cq coll qe k).filterMap (resolvePos store.length),
      p < store.length := by
    intro p hp
    obtain ⟨id, _, hid⟩ := List.mem_filterMap.mp hp
    exact resolvePos_lt hid
  have hlen_eq : (resolveIds store (cq coll qe k)).length
      = ((cq coll qe k).filterMap (resolvePos store.length)).length := by
    rw [resolveIds_eq_positions, length_filterMap_get? hposlt]
  have hnd' := filterMap_resolvePos_nodup hnd hmem
  refine ⟨hsearch, ?_, ?_, hnd', resolveIds_eq_positions store _⟩
  · rw [hlen_eq]
    exact le_trans (List.length_filterMap_le _ _) hlen
  · rw [hlen_eq]
    have hsub : ((cq coll qe k).filterMap (resolvePos store.length)).toFinset
        ⊆ Finset.range store.length := by
      intro p hp
      rw [List.mem_toFinset] at hp
      rw [Finset.mem_range]
      exact hposlt p hp
    have hcard := Finset.card_le_card hsub
    rw [Finset.card_range, List.toFinset_card_of_nodup hnd'] at hcard
    exact hcard

/-- C4 witness: three stored documents, `k = 10`, a reply naming all
three — `search` returns exactly the three records, no padding, no
error. -/
theorem C4_search_bounds_witness :
    search (fun _ => .ok [1]) (fun _ _ _ => ["doc_2", "doc_0", "doc_1"])
        demoRetriever "q" "Civil" 10
      = .ok (resolveIds demoStore3 ["doc_2", "doc_0", "doc_1"]) ∧
    (resolveIds demoStore3 ["doc_2", "doc_0", "doc_1"]).length ≤ 10 ∧
    (resolveIds demoStore3 ["doc_2", "doc_0", "doc_1"]).length
      ≤ demoStore3.length ∧
    (["doc_2", "doc_0", "doc_1"].filterMap
        (resolvePos demoStore3.length)).Nodup ∧
    resolveIds demoStore3 ["doc_2", "doc_0", "doc_1"]
      = (["doc_2", "doc_0", "doc_1"].filterMap
          (resolvePos demoStore3.length)).filterMap demoStore3.get? :=
  C4_search_bounds _ _ demoRetriever "q" "Civil" 10 "civil" [1] demoStore3
    (by decide) (by decide) rfl (by decide) (by decide) (by decide)

/-! ### Claim C5 -/

/-- C5: a category that is not one of the engine's known categories has
no entry in `collections`, so `search` returns the empty list without
touching the encoder or the vector store — for every query, every `k`,
and even a failing embedding provider. -/
theorem C5_unknown_category_empty (fs : FileSys) (cc0 : String → Nat)
    (encode : String → Except EmbErr (List Int))
    (cq : String → List Int → Nat → List String) (q cat : String) (k : Nat)
    (h : cat ∉ categories) :
    search encode cq (initCollections fs cc0).retriever q cat k = .ok [] :=
  search_unknown _ _ _ _ _ _ (lookup_collections_none h fs cc0)

/-- C5 witness: the unknown-category query of the spec's scenario,
issued with a failing embedding provider, still returns the empty
list. -/
theorem C5_unknown_category_empty_witness :
    "unknown_category" ∉ categories ∧
      search (fun _ => .error embDown) (fun _ _ _ => []) demoInit.retriever
          "anything" "unknown_category" 5 = .ok [] :=
  ⟨by decide,
    C5_unknown_category_empty demoFs (fun _ => 0) _ _ _ _ 5 (by decide)⟩

/-! ### Claim C6 -/

/-- C6 counterexample: the identifier `doc_-1` — whose position `-1`
matches no document position of the store (positions are `0 … n-1`) —
is not dropped: Python negative indexing resolves it to the last record;
likewise `doc_1_x`, which does not parse as `doc_<integer>` as a whole,
is resolved via its second underscore-separated field rather than
dropped. -/
theorem C6_counterexample :
    parsedIndex "doc_-1" = some (-1) ∧
    resolveIds demoStore3 ["doc_-1"] = [⟨"c2", "t2", "gamma", "", ""⟩] ∧
    resolveIds demoStore3 ["doc_-1"] ≠ [] ∧
    resolveIds demoStore3 ["doc_1_x"] = [⟨"c1", "t1", "beta", "", ""⟩] := by
  refine ⟨by decide, by decide, by decide, by decide⟩

/-- C6 amended: resolution parses the second underscore-separated field
of each identifier as an integer; identifiers with no such field, a
non-integer field, or a parsed index outside `[-n, n)` are dropped
silently and never fail the query, a parsed index in `[0, n)` resolves
to the record at that position, and a parsed negative index in
`[-n, 0)` resolves — rather than being dropped — to the record at
position `n + idx`, counting from the end of the store. -/
theorem C6_resolution_behavior (store : List CaseRecord) (docId : String) :
    (parsedIndex docId = none → resolveOne store docId = none) ∧
    (∀ idx : Int, parsedIndex docId = some idx →
      (store.length : Int) ≤ idx → resolveOne store docId = none) ∧
    (∀ idx : Int, parsedIndex docId = some idx →
      idx < -(store.length : Int) → resolveOne store docId = none) ∧
    (∀ idx : Int, parsedIndex docId = some idx →
      0 ≤ idx → idx < (store.length : Int) →
      resolveOne store docId = store.get? idx.toNat) ∧
    (∀ idx : Int, parsedIndex docId = some idx →
      -(store.length : Int) ≤ idx → idx < 0 →
      resolveOne store docId = store.get? ((store.length : Int) + idx).toNat) := by
  refine ⟨?_, ?_, ?_, ?_, ?_⟩
  · intro hp
    unfold resolveOne resolvePos
    rw [hp]
    rfl
  · intro idx hp h1
    unfold resolveOne resolvePos
    rw [hp]
    simp only
    rw [if_neg (by omega)]
    rfl
  · intro idx hp h1
    unfold resolveOne resolvePos
    rw [hp]
    simp only
    rw [if_pos (by omega), if_neg (by omega), if_neg (by omega)]
    rfl
  · intro idx hp h1 h2
    unfold resolveOne resolvePos
    rw [hp]
    simp only
    rw [if_pos h2, if_pos h1]
    rfl
  · intro idx hp h1 h2
    unfold resolveOne resolvePos
    rw [hp]
    simp only
    rw [if_pos (by omega), if_neg (by omega), if_pos (by omega)]
    rfl

/-- C6 witness: the amended statement instantiated on a malformed
identifier, an out-of-range one, an in-range one, and a too-negative
one, over the three-record store. -/
theorem C6_resolution_behavior_witness :
    resolveOne demoStore3 "doc" = none ∧
    resolveOne demoStore3 "doc_7" = none ∧
    resolveOne demoStore3 "doc_1" = demoStore3.get? ((1 : Int)).toNat ∧
    resolveOne demoStore3 "doc_-4" = none :=
  ⟨(C6_resolution_behavior demoStore3 "doc").1 (by decide),
    (C6_resolution_behavior demoStore3 "doc_7").2.1 7 (by decide) (by decide),
    (C6_resolution_behavior demoStore3 "doc_1").2.2.2.1 1 (by decide)
      (by decide) (by decide),
    (C6_resolution_behavior demoStore3 "doc_-4").2.2.1 (-4) (by decide)
      (by decide)⟩

/-! ### Claim C7 -/

/-- C7: ingestion runs exactly when the category's persistent collection
holds zero items and its loaded dataset is non-empty; and a second
initialization over the same filesystem, starting from the collection
counts left by the first, performs no ingestion calls to the embedding
provider and leaves every collection count unchanged. -/
theorem C7_ingest_iff_empty_and_idempotent (fs : FileSys) (cc0 : String → Nat) :
    (∀ (count : Nat) (data : List CaseRecord),
        ingestRuns count data = true ↔ (count = 0 ∧ data ≠ [])) ∧
    (initCollections fs ((initCollections fs cc0).collCount)).embedCalls = 0 ∧
    (initCollections fs ((initCollections fs cc0).collCount)).collCount
      = (initCollections fs cc0).collCount := by
  refine ⟨?_, (second_init_no_ingest fs cc0).1, (second_init_no_ingest fs cc0).2⟩
  intro count data
  rcases data with _ | ⟨d, ds⟩ <;> simp [ingestRuns]

/-! ### Claim C8 -/

/-- C8: a missing or unparsable dataset snapshot loads as the empty
sequence rather than raising, and every category — regardless of what
happened to the others' files — still comes out of initialization with
its document-store entry (its own load result) and its collection entry
present and usable. -/
theorem C8_missing_dataset_degrades (fs : FileSys) (cc0 : String → Nat) :
    (∀ p, fs p = none → load_json_data fs p = []) ∧
    (∀ p, fs p = some none → load_json_data fs p = []) ∧
    (∀ cat ∈ categories,
      ((initCollections fs cc0).retriever.doc_stores).lookup cat
          = some (load_json_data fs (datasetPath cat)) ∧
        ((initCollections fs cc0).retriever.collections).lookup cat
          = some (pyLower cat)) := by
  refine ⟨?_, ?_, ?_⟩
  · intro p hp
    unfold load_json_data
    rw [hp]
  · intro p hp
    unfold load_json_data
    rw [hp]
  · intro cat hcat
    refine ⟨lookup_doc_stores fs cc0 hcat, ?_⟩
    rw [initCollections_retriever]
    simp only [categories, List.mem_cons, List.not_mem_nil, or_false] at hcat
    rcases hcat with rfl | rfl | rfl <;> rfl

/-- C8 witness: over a filesystem holding only the civil dataset, the
criminal snapshot loads as empty while both categories' stores and
collections are initialized — civil usable with its record, criminal
degraded to empty. -/
theorem C8_missing_dataset_degrades_witness :
    load_json_data demoFs "india_criminal_verdicts.json" = [] ∧
    ((initCollections demoFs (fun _ => 0)).retriever.doc_stores).lookup "Criminal"
      = some [] ∧
    ((initCollections demoFs (fun _ => 0)).retriever.doc_stores).lookup "Civil"
      = some [demoRec] ∧
    ((initCollections demoFs (fun _ => 0)).retriever.collections).lookup "Criminal"
      = some "criminal" := by
  have h := C8_missing_dataset_degrades demoFs (fun _ => 0)
  refine ⟨h.1 _ rfl, ?_, ?_, ?_⟩
  · rw [(h.2.2 "Criminal" (by decide)).1]
    rfl
  · rw [(h.2.2 "Civil" (by decide)).1]
    rfl
  · rw [(h.2.2 "Criminal" (by decide)).2]
    rfl

/-! ### Claim C9 -/

/-- C9: the keys of `collections` are the capitalized names "Civil",
"Criminal", "Traffic", and dictionary lookup is case-sensitive, so
`search` with the lowercase category spellings returns the empty list,
exactly as for an unknown category. -/
theorem C9_lowercase_category_empty (fs : FileSys) (cc0 : String → Nat)
    (encode : String → Except EmbErr (List Int))
    (cq : String → List Int → Nat → List String) (q : String) (k : Nat) :
    search encode cq (initCollections fs cc0).retriever q "civil" k = .ok [] ∧
    search encode cq (initCollections fs cc0).retriever q "criminal" k = .ok [] ∧
    search encode cq (initCollections fs cc0).retriever q "traffic" k = .ok [] :=
  ⟨search_unknown _ _ _ _ _ _ (lookup_collections_none (by decide) fs cc0),
    search_unknown _ _ _ _ _ _ (lookup_collections_none (by decide) fs cc0),
    search_unknown _ _ _ _ _ _ (lookup_collections_none (by decide) fs cc0)⟩

/-! ### Claim C10 -/

/-- C10: every record in a successful `search` result is an element of
the category's in-memory document store, and a category whose store is
empty yields the empty result for every query and every `k`, no matter
what identifiers the persisted semantic collection returns. -/
theorem C10_results_from_doc_store
    (encode : String → Except EmbErr (List Int))
    (cq : String → List Int → Nat → List String)
    (r : Retriever) (q cat : String) (k : Nat) (out : List CaseRecord)
    (h : search encode cq r q cat k = .ok out) :
    (∀ rec ∈ out, rec ∈ (r.doc_stores.lookup cat).getD []) ∧
    ((r.doc_stores.lookup cat).getD [] = [] → out = []) := by
  unfold search at h
  cases hc : r.collections.lookup cat with
  | none =>
    rw [hc] at h
    simp only [Except.ok.injEq] at h
    subst h
    exact ⟨by simp, fun _ => rfl⟩
  | some coll =>
    rw [hc] at h
    cases he : encode q with
    | error e =>
      rw [he] at h
      exact absurd h (by simp)
    | ok qe =>
      rw [he] at h
      simp only [Except.ok.injEq] at h
      subst h
      constructor
      · intro rec hrec
        exact mem_of_mem_resolveIds hrec
      · intro hstore
        rw [hstore]
        exact resolveIds_nil_store _

/-- C10 witness: the theorem applied to the demo retriever (results lie
in the store) and to a retriever whose store is empty while its
collection still returns identifiers (result is empty). -/
theorem C10_results_from_doc_store_witness :
    ((∀ rec ∈ resolveIds demoStore3 ["doc_0"],
        rec ∈ (demoRetriever.doc_stores.lookup "Civil").getD []) ∧
      ((demoRetriever.doc_stores.lookup "Civil").getD [] = [] →
        resolveIds demoStore3 ["doc_0"] = [])) ∧
    ((∀ rec ∈ ([] : List CaseRecord),
        rec ∈ (emptyStoreRetriever.doc_stores.lookup "Civil").getD []) ∧
      ((emptyStoreRetriever.doc_stores.lookup "Civil").getD [] = [] →
        ([] : List CaseRecord) = [])) :=
  ⟨C10_results_from_doc_store (fun _ => .ok [1]) (fun _ _ _ => ["doc_0"])
      demoRetriever "q" "Civil" 5 (resolveIds demoStore3 ["doc_0"]) rfl,
    C10_results_from_doc_store (fun _ => .ok [1])
      (fun _ _ _ => ["doc_0", "doc_-1"]) emptyStoreRetriever "q" "Civil" 5 []
      rfl⟩

end Lawgorithm
